import Mathlib

/-!
# Verification of the VIN decoder (`src/vin_decoder.py`)

Shallow embedding of the VIN decoder of this repository.  Python strings are
modelled as `List Char`; Python `str.upper()` is modelled as ASCII uppercasing
(every character the decoder's alphabet accepts is ASCII).  Python dicts used
as static lookup tables are modelled as association lists with `List.lookup`;
the insertion-ordered result dicts are modelled as structures.  Indexing that
can raise `IndexError` in Python (`vin[9]`, `vin[10]`) is modelled with
`List.getElem?`, so `decode_vin` and `get_forensic_summary` return `Option`:
a `none` result corresponds to an uncaught exception.
-/

namespace VIN

/-- ASCII uppercasing of one character, the restriction of Python's
`str.upper()` to ASCII (97–122 are the codes of the lowercase letters). -/
def upperChar (c : Char) : Char :=
  if 97 ≤ c.toNat ∧ c.toNat ≤ 122 then Char.ofNat (c.toNat - 32) else c

/-- `vin.upper()` on a character list. -/
def upper (s : List Char) : List Char :=
  s.map upperChar

/-- Membership in the character class `[A-HJ-NPR-Z0-9]` of the compiled
pattern `^[A-HJ-NPR-Z0-9]{17}$` (codes: digits 48–57, A–H 65–72, J–N 74–78,
P 80, R–Z 82–90). -/
def allowedChar (c : Char) : Bool :=
  (48 ≤ c.toNat && c.toNat ≤ 57) ||
  (65 ≤ c.toNat && c.toNat ≤ 72) ||
  (74 ≤ c.toNat && c.toNat ≤ 78) ||
  (c.toNat == 80) ||
  (82 ≤ c.toNat && c.toNat ≤ 90)

/-- `self.vin_pattern.match(s)` for the anchored pattern
`^[A-HJ-NPR-Z0-9]{17}$`: exactly 17 characters, all in the class. -/
def vinPatternMatch (s : List Char) : Bool :=
  s.length == 17 && s.all allowedChar

/-- `VINDecoder._validate_check_digit`: the stub that always reports
success. -/
def validate_check_digit (_vin : List Char) : Bool :=
  true

/-- `VINDecoder.validate_vin`.  The three checks append their messages in
source order; the empty string short-circuits. -/
def validate_vin (vin : List Char) : Bool × List String :=
  if vin = [] then (false, ["VIN cannot be empty"])
  else
    let errors :=
      (if vin.length = 17 then []
       else ["VIN must be 17 characters, got " ++ toString vin.length]) ++
      (if vinPatternMatch (upper vin) then []
       else ["VIN contains invalid characters (I, O, Q not allowed)"]) ++
      (if vin.length = 17 ∧ validate_check_digit vin = false then
        ["Invalid VIN check digit"]
       else [])
    (errors.isEmpty, errors)

/-- `VINDecoder.MANUFACTURERS`, the WMI lookup table. -/
def MANUFACTURERS : List (List Char × String) :=
  [(['K', 'M', '8'], "Hyundai Motor Company"),
   (['1', 'G', '1'], "General Motors"),
   (['J', 'H', 'M'], "Honda"),
   (['W', 'B', 'A'], "BMW")]

/-- `VINDecoder.MODEL_YEARS`, the model-year lookup table. -/
def MODEL_YEARS : List (Char × Nat) :=
  [('L', 2020), ('M', 2021), ('N', 2022), ('P', 2023), ('R', 2024), ('S', 2025)]

/-- The `VINInfo` dataclass. -/
structure VINInfo where
  vin : List Char
  manufacturer : String
  model_year : Nat
  plant_code : String
  vehicle_type : String
  is_valid : Bool
  errors : List String
  deriving Repr, DecidableEq

/-- `vin.startswith(p)`. -/
def startsWith (s p : List Char) : Bool :=
  s.take p.length == p

/-- `VINDecoder._determine_vehicle_type` (the unused `descriptor = vin[3:8]`
slice is dropped). -/
def determine_vehicle_type (vin : List Char) : String :=
  if startsWith vin ['K', 'M', '8', 'R', '5', '4', 'H', 'E'] then "Palisade SUV"
  else if startsWith vin ['K', 'M', '8'] then "Hyundai Vehicle"
  else "Unknown Vehicle Type"

/-- The `VINInfo` built on the invalid branch of `decode_vin`. -/
def invalidInfo (vin : List Char) (errors : List String) : VINInfo :=
  { vin := vin, manufacturer := "Unknown", model_year := 0, plant_code := "",
    vehicle_type := "", is_valid := false, errors := errors }

/-- The `VINInfo` built on the valid branch of `decode_vin`, from the
validation errors `errs`, the uppercased VIN `v`, the year code `y = v[9]`
and the plant code `p = v[10]`. -/
def validInfo (errs : List String) (v : List Char) (y p : Char) : VINInfo :=
  { vin := v,
    manufacturer :=
      (MANUFACTURERS.lookup (v.take 3)).getD
        ("Unknown (" ++ String.mk (v.take 3) ++ ")"),
    model_year := (MODEL_YEARS.lookup y).getD 0,
    plant_code := String.mk [p],
    vehicle_type := determine_vehicle_type v,
    is_valid := true,
    errors :=
      if (MODEL_YEARS.lookup y).getD 0 = 0 then
        errs ++ ["Unknown model year code: " ++ String.mk [y]]
      else errs }

/-- `VINDecoder.decode_vin`.  `none` models an `IndexError` on `vin[9]` or
`vin[10]` (which cannot in fact occur, see `c8_no_exceptions`). -/
def decode_vin (vin : List Char) : Option VINInfo :=
  if (validate_vin vin).1 = false then
    some (invalidInfo vin (validate_vin vin).2)
  else
    let v := upper vin
    match v[9]?, v[10]? with
    | some y, some p => some (validInfo (validate_vin vin).2 v y p)
    | _, _ => none

/-- The fixed advisory entries attached by `_assess_legal_relevance`. -/
def palisadeRelevance : List (String × String) :=
  [("known_issues", "Oil consumption defects documented in class action suits"),
   ("warranty_status", "10-year powertrain warranty applicable"),
   ("recall_potential", "Check NHTSA database for active recalls")]

/-- `"Palisade" in s`, Python substring containment. -/
def containsSubstr (s pat : List Char) : Bool :=
  (List.range (s.length + 1)).any fun i => startsWith (s.drop i) pat

/-- `VINDecoder._assess_legal_relevance`. -/
def assess_legal_relevance (info : VINInfo) : List (String × String) :=
  if containsSubstr info.vehicle_type.data
      ['P', 'a', 'l', 'i', 's', 'a', 'd', 'e'] then
    palisadeRelevance
  else []

/-- The dict returned by `VINDecoder.get_forensic_summary`, field names as in
the source. -/
structure ForensicSummary where
  vin : List Char
  manufacturer : String
  model_year : Nat
  vehicle_type : String
  validation_status : String
  wmi_code : List Char
  plant_code : String
  serial_number : String
  legal_relevance : List (String × String)
  deriving Repr, DecidableEq

/-- `VINDecoder.get_forensic_summary`.  The raw input `vin` (not the decoded
record) feeds the forensic-notes block; `vin[10]` is guarded by the length
test in the source, and the guarded access is modelled with `getElem?` so a
`none` again models an `IndexError`. -/
def get_forensic_summary (vin : List Char) : Option ForensicSummary :=
  match decode_vin vin with
  | none => none
  | some info =>
    match (if 11 ≤ vin.length then (vin[10]?).map (fun c => String.mk [c])
           else some "Unknown") with
    | none => none
    | some pc =>
      some { vin := info.vin,
             manufacturer := info.manufacturer,
             model_year := info.model_year,
             vehicle_type := info.vehicle_type,
             validation_status := if info.is_valid then "VALID" else "INVALID",
             wmi_code := vin.take 3,
             plant_code := pc,
             serial_number :=
               if 12 ≤ vin.length then String.mk (vin.drop 11) else "Unknown",
             legal_relevance := assess_legal_relevance info }

/-- The litigation VIN used in the repository's own test block. -/
def litVIN : List Char :=
  ['K', 'M', '8', 'R', '5', '4', 'H', 'E', '1', 'L', 'U', '0', '6', '6', '8', '0', '8']

/-- A 17-character BMW VIN whose year code (index 9) is `'0'`, unmapped. -/
def wbaVIN : List Char :=
  ['W', 'B', 'A', '0', '0', '0', '0', '0', '0', '0', '0', '0', '0', '0', '0', '0', '0']

/-- The message of the length check, for an input of length `n`. -/
def lengthError (n : Nat) : String :=
  "VIN must be 17 characters, got " ++ toString n

/-- The record `decode_vin` produces for `litVIN`. -/
def litInfo : VINInfo :=
  { vin := litVIN, manufacturer := "Hyundai Motor Company", model_year := 2020,
    plant_code := "U", vehicle_type := "Palisade SUV", is_valid := true, errors := [] }

/-- The record `decode_vin` produces for `wbaVIN`. -/
def wbaInfo : VINInfo :=
  { vin := wbaVIN, manufacturer := "BMW", model_year := 0, plant_code := "0",
    vehicle_type := "Unknown Vehicle Type", is_valid := true,
    errors := ["Unknown model year code: 0"] }

/-- The summary `get_forensic_summary` produces for `litVIN`. -/
def litSummary : ForensicSummary :=
  { vin := litVIN, manufacturer := "Hyundai Motor Company", model_year := 2020,
    vehicle_type := "Palisade SUV", validation_status := "VALID",
    wmi_code := ['K', 'M', '8'], plant_code := "U", serial_number := "066808",
    legal_relevance := palisadeRelevance }

/-! ## Helper lemmas -/

/-- Characters of the permitted alphabet are fixed by uppercasing. -/
theorem upperChar_of_allowed {c : Char} (h : allowedChar c = true) : upperChar c = c := by
  simp only [allowedChar, Bool.or_eq_true, Bool.and_eq_true, decide_eq_true_eq,
    beq_iff_eq] at h
  unfold upperChar
  rw [if_neg (by omega)]

/-- Lists of permitted characters are fixed by uppercasing. -/
theorem upper_of_allowed : ∀ {l : List Char}, l.all allowedChar = true → upper l = l
  | [], _ => rfl
  | c :: t, h => by
    simp only [List.all_cons, Bool.and_eq_true] at h
    have ht : upper t = t := upper_of_allowed h.2
    simp only [upper, List.map_cons] at ht ⊢
    rw [upperChar_of_allowed h.1, ht]

/-- Uppercasing preserves length. -/
theorem upper_length (l : List Char) : (upper l).length = l.length := by
  simp [upper]

/-- `validate_vin` reports validity exactly when its error list is empty. -/
theorem validate_vin_fst_eq (vin : List Char) :
    (validate_vin vin).1 = (validate_vin vin).2.isEmpty := by
  unfold validate_vin
  by_cases hv : vin = [] <;> simp [hv]

/-- Characterization of the validity flag of `validate_vin`: the length is 17
and every character of the uppercased input is in the permitted class (the
check-digit stub never fails). -/
theorem validate_vin_fst_iff (vin : List Char) :
    (validate_vin vin).1 = true ↔
      vin.length = 17 ∧ (upper vin).all allowedChar = true := by
  by_cases hv : vin = []
  · subst hv
    simp [validate_vin]
  · by_cases h17 : vin.length = 17 <;> by_cases hall : (upper vin).all allowedChar = true <;>
      simp [validate_vin, hv, vinPatternMatch, h17, hall, validate_check_digit, upper_length]

/-- A valid input produces an empty validation error list. -/
theorem validate_vin_snd_of_valid (vin : List Char) (h : (validate_vin vin).1 = true) :
    (validate_vin vin).2 = [] := by
  have := validate_vin_fst_eq vin
  rw [h] at this
  exact (List.isEmpty_iff.mp this.symm)

/-- An invalid input produces a non-empty validation error list. -/
theorem validate_vin_snd_of_invalid (vin : List Char) (h : (validate_vin vin).1 = false) :
    (validate_vin vin).2 ≠ [] := by
  intro hnil
  have := validate_vin_fst_eq vin
  rw [h, hnil] at this
  exact Bool.false_ne_true this

/-- On invalid input `decode_vin` returns the placeholder record. -/
theorem decode_vin_of_invalid (vin : List Char) (h : (validate_vin vin).1 = false) :
    decode_vin vin = some (invalidInfo vin (validate_vin vin).2) := by
  unfold decode_vin
  rw [if_pos h]

/-- On valid input `decode_vin` takes the extraction path: indices 9 and 10
of the uppercased input exist and the result is the corresponding
`validInfo` record over an empty base error list. -/
theorem decode_vin_of_valid (vin : List Char) (h : (validate_vin vin).1 = true) :
    ∃ y p, (upper vin)[9]? = some y ∧ (upper vin)[10]? = some p ∧
      decode_vin vin = some (validInfo [] (upper vin) y p) := by
  have h17 : vin.length = 17 := ((validate_vin_fst_iff vin).1 h).1
  have hu : (upper vin).length = 17 := by rw [upper_length, h17]
  have hy : 9 < (upper vin).length := by omega
  have hp : 10 < (upper vin).length := by omega
  refine ⟨(upper vin)[9], (upper vin)[10],
    List.getElem?_eq_getElem hy, List.getElem?_eq_getElem hp, ?_⟩
  unfold decode_vin
  rw [if_neg (by simp [h])]
  simp only [validate_vin_snd_of_valid vin h, List.getElem?_eq_getElem hy,
    List.getElem?_eq_getElem hp]

/-- `decode_vin` always produces a record. -/
theorem decode_vin_exists (vin : List Char) : ∃ info, decode_vin vin = some info := by
  by_cases hval : (validate_vin vin).1 = true
  · obtain ⟨y, p, _, _, hd⟩ := decode_vin_of_valid vin hval
    exact ⟨_, hd⟩
  · simp only [Bool.not_eq_true] at hval
    exact ⟨_, decode_vin_of_invalid vin hval⟩

/-- Dropping to a position and taking one element is the singleton of the
element at that position. -/
theorem drop_take_one {l : List Char} {n : Nat} (h : n < l.length) :
    (l.drop n).take 1 = [l[n]] := by
  rw [List.drop_eq_getElem_cons h]
  rfl

/-- The summary `get_forensic_summary` produces, in terms of the record
`decode_vin` produces for the same input. -/
theorem get_forensic_summary_of_decode (vin : List Char) (info : VINInfo)
    (hinfo : decode_vin vin = some info) :
    get_forensic_summary vin =
      some { vin := info.vin, manufacturer := info.manufacturer,
             model_year := info.model_year, vehicle_type := info.vehicle_type,
             validation_status := if info.is_valid then "VALID" else "INVALID",
             wmi_code := vin.take 3,
             plant_code :=
               if 11 ≤ vin.length then String.mk ((vin.drop 10).take 1)
               else "Unknown",
             serial_number :=
               if 12 ≤ vin.length then String.mk (vin.drop 11) else "Unknown",
             legal_relevance := assess_legal_relevance info } := by
  unfold get_forensic_summary
  rw [hinfo]
  by_cases h11 : 11 ≤ vin.length
  · have h10 : 10 < vin.length := by omega
    rw [List.getElem?_eq_getElem h10, drop_take_one h10]
    by_cases h12 : 12 ≤ vin.length <;> simp [h11, h12]
  · have h12 : ¬ 12 ≤ vin.length := by omega
    simp [h11, h12]

/-! ## Claims -/

/-- C1 (counterexample): the claimed invariant "`isValid` is true iff
`errors` is empty" fails on a record the decoder produces: for `wbaVIN`
(17 permitted characters, year code `'0'` unmapped) the returned record has
`is_valid = true` and a non-empty error list. -/
theorem c1_counterexample :
    decode_vin wbaVIN = some wbaInfo ∧
      wbaInfo.is_valid = true ∧ wbaInfo.errors ≠ [] := by
  refine ⟨by decide, rfl, by decide⟩

/-- C1 (amended): for every record `decode_vin` produces, `is_valid` is true
iff the input has length 17, every character of its uppercasing is in the
permitted alphabet, and the (stubbed) check-digit test passes; an empty
error list implies `is_valid`, but the converse fails (see the
counterexample). -/
theorem c1_validity_characterization (vin : List Char) (info : VINInfo)
    (h : decode_vin vin = some info) :
    (info.is_valid = true ↔
      vin.length = 17 ∧ (upper vin).all allowedChar = true ∧
        validate_check_digit vin = true)
    ∧ (info.errors = [] → info.is_valid = true) := by
  by_cases hval : (validate_vin vin).1 = true
  · obtain ⟨y, p, h9, h10, hd⟩ := decode_vin_of_valid vin hval
    rw [hd] at h
    cases h
    have hc := (validate_vin_fst_iff vin).1 hval
    exact ⟨⟨fun _ => ⟨hc.1, hc.2, rfl⟩, fun _ => rfl⟩, fun _ => rfl⟩
  · simp only [Bool.not_eq_true] at hval
    rw [decode_vin_of_invalid vin hval] at h
    cases h
    refine ⟨⟨fun hc => absurd hc (by simp [invalidInfo]), fun hc => ?_⟩, fun he => ?_⟩
    · have : (validate_vin vin).1 = true := (validate_vin_fst_iff vin).2 ⟨hc.1, hc.2.1⟩
      rw [hval] at this
      exact absurd this (by simp)
    · exact absurd he (validate_vin_snd_of_invalid vin hval)

/-- C1 witness: the characterization instantiated at the litigation VIN. -/
theorem c1_witness :
    (litInfo.is_valid = true ↔
      litVIN.length = 17 ∧ (upper litVIN).all allowedChar = true ∧
        validate_check_digit litVIN = true)
    ∧ (litInfo.errors = [] → litInfo.is_valid = true) :=
  c1_validity_characterization litVIN litInfo (by decide)

/-- C2 (counterexample): the claim "the `vin` field equals the input
uppercased, on the invalid path too" fails: for the invalid input `['a']`
the returned record carries the raw input `['a']`, not `upper ['a'] = ['A']`. -/
theorem c2_counterexample :
    Option.map VINInfo.vin (decode_vin ['a']) = some ['a'] ∧
      upper ['a'] = ['A'] ∧ (['a'] : List Char) ≠ ['A'] := by
  refine ⟨by decide, by decide, by decide⟩

/-- C2 (amended): on the valid path the `vin` field is the uppercased input;
on the invalid path it is the raw input unchanged (the source normalizes
only after the validity test). -/
theorem c2_vin_field (vin : List Char) (info : VINInfo)
    (h : decode_vin vin = some info) :
    (info.is_valid = true → info.vin = upper vin) ∧
      (info.is_valid = false → info.vin = vin) := by
  by_cases hval : (validate_vin vin).1 = true
  · obtain ⟨y, p, _, _, hd⟩ := decode_vin_of_valid vin hval
    rw [hd] at h
    cases h
    exact ⟨fun _ => rfl, fun hc => absurd hc (by simp [validInfo])⟩
  · simp only [Bool.not_eq_true] at hval
    rw [decode_vin_of_invalid vin hval] at h
    cases h
    exact ⟨fun hc => absurd hc (by simp [invalidInfo]), fun _ => rfl⟩

/-- C2 witness: the amended claim instantiated at the lowercase input
`['a']` (invalid path) — the record keeps the raw input. -/
theorem c2_witness :
    (VINInfo.is_valid (invalidInfo ['a'] (validate_vin ['a']).2) = true →
      VINInfo.vin (invalidInfo ['a'] (validate_vin ['a']).2) = upper ['a']) ∧
    (VINInfo.is_valid (invalidInfo ['a'] (validate_vin ['a']).2) = false →
      VINInfo.vin (invalidInfo ['a'] (validate_vin ['a']).2) = ['a']) :=
  c2_vin_field ['a'] (invalidInfo ['a'] (validate_vin ['a']).2) (by decide)

/-- C3 (counterexample): for the empty string `validate_vin` short-circuits
with the single message "VIN cannot be empty"; no message reports the actual
length 0, contrary to the claim's "including the empty string". -/
theorem c3_counterexample :
    (validate_vin []).1 = false ∧
      (validate_vin []).2 = ["VIN cannot be empty"] ∧
      lengthError (List.length ([] : List Char)) ∉ (validate_vin []).2 := by
  refine ⟨rfl, rfl, by decide⟩

/-- C3 (amended): for every non-empty string whose length is not 17,
`validate_vin` reports invalidity and its error list contains the message
reporting the actual length. -/
theorem c3_length_error (vin : List Char) (hne : vin ≠ []) (h17 : vin.length ≠ 17) :
    (validate_vin vin).1 = false ∧ lengthError vin.length ∈ (validate_vin vin).2 := by
  constructor
  · cases hb : (validate_vin vin).1
    · rfl
    · exact absurd ((validate_vin_fst_iff vin).1 hb).1 h17
  · unfold validate_vin
    rw [if_neg hne]
    simp [h17, lengthError]

/-- C3 witness: the amended claim instantiated at the length-1 input `['A']`. -/
theorem c3_witness :
    (validate_vin ['A']).1 = false ∧
      lengthError (['A'] : List Char).length ∈ (validate_vin ['A']).2 :=
  c3_length_error ['A'] (by decide) (by decide)

/-- C4: every 17-character string over the permitted alphabet that starts
with "WBA" and whose character at index 9 is not a mapped year code decodes
to manufacturer "BMW", model year 0, the unknown-model-year message as sole
error, and `is_valid = true`. -/
theorem c4_bmw_unknown_year (vin : List Char) (y : Char)
    (hlen : vin.length = 17) (halpha : vin.all allowedChar = true)
    (hpre : startsWith vin ['W', 'B', 'A'] = true)
    (hy : vin[9]? = some y) (hmiss : MODEL_YEARS.lookup y = none) :
    Option.map VINInfo.manufacturer (decode_vin vin) = some "BMW" ∧
    Option.map VINInfo.model_year (decode_vin vin) = some 0 ∧
    Option.map VINInfo.is_valid (decode_vin vin) = some true ∧
    Option.map VINInfo.errors (decode_vin vin) =
      some ["Unknown model year code: " ++ String.mk [y]] := by
  have hupper : upper vin = vin := upper_of_allowed halpha
  have hval : (validate_vin vin).1 = true :=
    (validate_vin_fst_iff vin).2 ⟨hlen, by rw [hupper]; exact halpha⟩
  obtain ⟨y0, p, h9, h10, hd⟩ := decode_vin_of_valid vin hval
  rw [hupper] at h9 h10 hd
  rw [hy] at h9
  injection h9 with h9
  subst h9
  have htake : vin.take 3 = ['W', 'B', 'A'] := by
    simp only [startsWith, beq_iff_eq] at hpre
    simpa using hpre
  have hbmw : MANUFACTURERS.lookup (['W', 'B', 'A'] : List Char) = some "BMW" := by decide
  rw [hd]
  refine ⟨?_, ?_, ?_, ?_⟩ <;> simp [validInfo, htake, hbmw, hmiss]

/-- C4 witness: the scenario instantiated at `wbaVIN` (year code `'0'`). -/
theorem c4_witness :
    Option.map VINInfo.manufacturer (decode_vin wbaVIN) = some "BMW" ∧
    Option.map VINInfo.model_year (decode_vin wbaVIN) = some 0 ∧
    Option.map VINInfo.is_valid (decode_vin wbaVIN) = some true ∧
    Option.map VINInfo.errors (decode_vin wbaVIN) =
      some ["Unknown model year code: " ++ String.mk ['0']] :=
  c4_bmw_unknown_year wbaVIN '0' (by decide) (by decide) (by decide) (by decide)
    (by decide)

/-- C5: whenever validation fails, `decode_vin` returns the placeholder
record ("Unknown", 0, empty plant code and vehicle type, `is_valid = false`)
carrying exactly the errors `validate_vin` accumulated; for the empty string
those errors are exactly ["VIN cannot be empty"]. -/
theorem c5_invalid_placeholder (vin : List Char) (info : VINInfo)
    (hval : (validate_vin vin).1 = false) (h : decode_vin vin = some info) :
    info.manufacturer = "Unknown" ∧ info.model_year = 0 ∧ info.plant_code = "" ∧
      info.vehicle_type = "" ∧ info.is_valid = false ∧
      info.errors = (validate_vin vin).2 ∧
      (validate_vin ([] : List Char)).2 = ["VIN cannot be empty"] := by
  rw [decode_vin_of_invalid vin hval] at h
  cases h
  exact ⟨rfl, rfl, rfl, rfl, rfl, rfl, rfl⟩

/-- C5 witness: instantiated at the empty string. -/
theorem c5_witness :
    VINInfo.manufacturer (invalidInfo [] (validate_vin []).2) = "Unknown" ∧
      VINInfo.model_year (invalidInfo [] (validate_vin []).2) = 0 ∧
      VINInfo.plant_code (invalidInfo [] (validate_vin []).2) = "" ∧
      VINInfo.vehicle_type (invalidInfo [] (validate_vin []).2) = "" ∧
      VINInfo.is_valid (invalidInfo [] (validate_vin []).2) = false ∧
      VINInfo.errors (invalidInfo [] (validate_vin []).2) = (validate_vin []).2 ∧
      (validate_vin ([] : List Char)).2 = ["VIN cannot be empty"] :=
  c5_invalid_placeholder [] (invalidInfo [] (validate_vin []).2) (by decide) (by decide)

/-- C6: the litigation VIN "KM8R54HE1LU066808" decodes to Hyundai Motor
Company, model year 2020 (year code 'L' at index 9), vehicle type
"Palisade SUV", `is_valid = true` and no errors. -/
theorem c6_litigation_vin :
    decode_vin litVIN = some litInfo ∧ litVIN[9]? = some 'L' ∧
      MODEL_YEARS.lookup 'L' = some 2020 := by
  refine ⟨by decide, by decide, by decide⟩

/-- C7: decoding is idempotent — feeding the `vin` field of a decoded record
back into the decoder reproduces the record field for field. -/
theorem c7_idempotent (vin : List Char) (info : VINInfo)
    (h : decode_vin vin = some info) :
    decode_vin info.vin = some info := by
  by_cases hval : (validate_vin vin).1 = true
  · obtain ⟨y, p, h9, h10, hd⟩ := decode_vin_of_valid vin hval
    rw [hd] at h
    cases h
    have hc := (validate_vin_fst_iff vin).1 hval
    have hfix : upper (upper vin) = upper vin := upper_of_allowed hc.2
    have hlen2 : (upper vin).length = 17 := by rw [upper_length, hc.1]
    have hval2 : (validate_vin (upper vin)).1 = true :=
      (validate_vin_fst_iff (upper vin)).2 ⟨hlen2, by rw [hfix]; exact hc.2⟩
    obtain ⟨y2, p2, h9', h10', hd'⟩ := decode_vin_of_valid (upper vin) hval2
    rw [hfix] at h9' h10' hd'
    rw [h9] at h9'
    injection h9' with e1
    subst e1
    rw [h10] at h10'
    injection h10' with e2
    subst e2
    show decode_vin (upper vin) = some (validInfo [] (upper vin) y p)
    exact hd'
  · simp only [Bool.not_eq_true] at hval
    rw [decode_vin_of_invalid vin hval] at h
    cases h
    show decode_vin vin = some (invalidInfo vin (validate_vin vin).2)
    exact decode_vin_of_invalid vin hval

/-- C7 witness: idempotence at the litigation VIN. -/
theorem c7_witness : decode_vin litInfo.vin = some litInfo :=
  c7_idempotent litVIN litInfo (by decide)

/-- C8: for every input — empty, wrong length, disallowed characters alike —
`decode_vin` and `get_forensic_summary` complete without an `IndexError`
(modelled as `none`), and `validate_vin` is total by construction; the
returned record always has every field populated, by the `VINInfo` type. -/
theorem c8_no_exceptions (vin : List Char) :
    (decode_vin vin).isSome = true ∧ (get_forensic_summary vin).isSome = true := by
  obtain ⟨info, hinfo⟩ := decode_vin_exists vin
  rw [hinfo, get_forensic_summary_of_decode vin info hinfo]
  exact ⟨rfl, rfl⟩

/-- C9: in the forensic summary, the notes block reports the raw input's
character 10 as plant code only when the input has at least 11 characters
and the substring from index 11 as serial number only when it has at least
12 characters, reporting "Unknown" otherwise; and the legal-relevance
mapping is non-empty — namely the fixed defect, warranty, and recall
advisory entries — exactly when the decoded vehicle type contains
"Palisade". -/
theorem c9_forensic_summary (vin : List Char) (fs : ForensicSummary)
    (h : get_forensic_summary vin = some fs) :
    (11 ≤ vin.length → fs.plant_code = String.mk ((vin.drop 10).take 1)) ∧
    (vin.length < 11 → fs.plant_code = "Unknown") ∧
    (12 ≤ vin.length → fs.serial_number = String.mk (vin.drop 11)) ∧
    (vin.length < 12 → fs.serial_number = "Unknown") ∧
    (fs.legal_relevance ≠ [] ↔
      containsSubstr fs.vehicle_type.data
        ['P', 'a', 'l', 'i', 's', 'a', 'd', 'e'] = true) ∧
    (fs.legal_relevance ≠ [] → fs.legal_relevance = palisadeRelevance) := by
  obtain ⟨info, hinfo⟩ := decode_vin_exists vin
  rw [get_forensic_summary_of_decode vin info hinfo] at h
  cases h
  refine ⟨fun h11 => ?_, fun h11 => ?_, fun h12 => ?_, fun h12 => ?_, ?_, ?_⟩
  · show (if 11 ≤ vin.length then _ else _) = _
    rw [if_pos h11]
  · show (if 11 ≤ vin.length then _ else _) = _
    rw [if_neg (by omega)]
  · show (if 12 ≤ vin.length then _ else _) = _
    rw [if_pos h12]
  · show (if 12 ≤ vin.length then _ else _) = _
    rw [if_neg (by omega)]
  · show assess_legal_relevance info ≠ [] ↔ _
    unfold assess_legal_relevance
    by_cases hpal : containsSubstr info.vehicle_type.data
        ['P', 'a', 'l', 'i', 's', 'a', 'd', 'e'] = true
    · rw [if_pos hpal]
      simp [hpal, palisadeRelevance]
    · rw [if_neg hpal]
      simp [hpal]
  · show assess_legal_relevance info ≠ [] → assess_legal_relevance info = _
    unfold assess_legal_relevance
    by_cases hpal : containsSubstr info.vehicle_type.data
        ['P', 'a', 'l', 'i', 's', 'a', 'd', 'e'] = true
    · rw [if_pos hpal]
      exact fun _ => rfl
    · rw [if_neg hpal]
      exact fun hc => absurd rfl hc

/-- C9 witness: the summary facts instantiated at the litigation VIN, whose
Palisade vehicle type triggers the legal-relevance entries. -/
theorem c9_witness :
    (11 ≤ litVIN.length → litSummary.plant_code = String.mk ((litVIN.drop 10).take 1)) ∧
    (litVIN.length < 11 → litSummary.plant_code = "Unknown") ∧
    (12 ≤ litVIN.length → litSummary.serial_number = String.mk (litVIN.drop 11)) ∧
    (litVIN.length < 12 → litSummary.serial_number = "Unknown") ∧
    (litSummary.legal_relevance ≠ [] ↔
      containsSubstr litSummary.vehicle_type.data
        ['P', 'a', 'l', 'i', 's', 'a', 'd', 'e'] = true) ∧
    (litSummary.legal_relevance ≠ [] → litSummary.legal_relevance = palisadeRelevance) :=
  c9_forensic_summary litVIN litSummary (by decide)

/-- C10 (implicit): a record returned with `is_valid = true` carries at most
one message, and a non-empty list is exactly the unknown-model-year-code
message for the character at index 9 of the record's (normalized) VIN. -/
theorem c10_valid_errors (vin : List Char) (info : VINInfo)
    (h : decode_vin vin = some info) (hv : info.is_valid = true) :
    info.errors.length ≤ 1 ∧
      (info.errors = [] ∨
        info.errors =
          ["Unknown model year code: " ++ String.mk ((info.vin.drop 9).take 1)]) := by
  by_cases hval : (validate_vin vin).1 = true
  · obtain ⟨y, p, h9, h10, hd⟩ := decode_vin_of_valid vin hval
    rw [hd] at h
    cases h
    have h9len : 9 < (upper vin).length := by
      rw [upper_length, ((validate_vin_fst_iff vin).1 hval).1]
      omega
    have hyv : (upper vin)[9] = y := by
      have hx := List.getElem?_eq_getElem h9len
      rw [h9] at hx
      injection hx with e
      exact e.symm
    have hdt : ((upper vin).drop 9).take 1 = [y] := by
      rw [drop_take_one h9len, hyv]
    show (validInfo [] (upper vin) y p).errors.length ≤ 1 ∧ _
    simp only [validInfo, hdt]
    by_cases hm : (MODEL_YEARS.lookup y).getD 0 = 0
    · rw [if_pos hm]
      exact ⟨by simp, Or.inr rfl⟩
    · rw [if_neg hm]
      exact ⟨by simp, Or.inl rfl⟩
  · simp only [Bool.not_eq_true] at hval
    rw [decode_vin_of_invalid vin hval] at h
    cases h
    exact absurd hv (by simp [invalidInfo])

/-- C10 witness: the `wbaVIN` record is valid and carries exactly the
unknown-model-year-code message for its character at index 9. -/
theorem c10_witness :
    wbaInfo.errors.length ≤ 1 ∧
      (wbaInfo.errors = [] ∨
        wbaInfo.errors =
          ["Unknown model year code: " ++ String.mk ((wbaInfo.vin.drop 9).take 1)]) :=
  c10_valid_errors wbaVIN wbaInfo (by decide) (by decide)

end VIN
